import Mathlib

/-!
Shallow embedding of the zemeny-ledger-safe-report repository: a double-entry
ledger (ledger/models.py, ledger/services.py), an append-only event log
(events/models.py), a payout state machine (payouts/models.py,
payouts/services.py, payouts/tasks.py) and read models
(read_models/models.py).  Monetary amounts (Decimal with scale 2) are
represented as integers in cents.  Database rows live in lists inside a DB
record; surrogate UUID primary keys are drawn from a counter.  Each Django
atomic block becomes a function returning Except: an error means the whole
block rolled back, so the caller resumes with its previous DB value.
-/

namespace LedgerSafe

/-- Account.ACCOUNT_TYPES from ledger/models.py. -/
inductive AccountType where
  | ASSET | LIABILITY | EQUITY | REVENUE | EXPENSE
deriving DecidableEq, Repr

/-- LedgerEntry.ENTRY_TYPES from ledger/models.py. -/
inductive EntryType where
  | DEBIT | CREDIT
deriving DecidableEq, Repr

/-- Transaction.STATUS_CHOICES from ledger/models.py. -/
inductive TxnStatus where
  | PENDING | COMPLETED | FAILED
deriving DecidableEq, Repr

/-- Payout.STATUS_CHOICES from payouts/models.py. -/
inductive PayoutStatus where
  | PENDING | PROCESSING | COMPLETED | FAILED | CANCELLED
deriving DecidableEq, Repr

/-- Rendering of a payout status, as Django shows it in error messages. -/
def PayoutStatus.str : PayoutStatus → String
  | .PENDING => "PENDING"
  | .PROCESSING => "PROCESSING"
  | .COMPLETED => "COMPLETED"
  | .FAILED => "FAILED"
  | .CANCELLED => "CANCELLED"

/-- Row of ledger_accounts (class Account in ledger/models.py). -/
structure Account where
  id : Nat
  account_code : String
  name : String
  account_type : AccountType
deriving DecidableEq, Repr

/-- Row of ledger_transactions (class Transaction in ledger/models.py). -/
structure Transaction where
  id : Nat
  transaction_id : String
  description : String
  status : TxnStatus
  metadata : List (String × String)
deriving DecidableEq, Repr

/-- Row of ledger_entries (class LedgerEntry in ledger/models.py).
    transaction_pk and account_id are the two foreign keys. -/
structure LedgerEntry where
  id : Nat
  transaction_pk : Nat
  account_id : Nat
  amount : Int
  entry_type : EntryType
  description : String
deriving DecidableEq, Repr

/-- Typed rendering of the JSON event_data payloads built in
    ledger/services.py, payouts/services.py and payouts/tasks.py. -/
inductive EventPayload where
  | ledgerTxnCreated (transaction_id description : String)
      (entries : List (Nat × Int × EntryType)) (metadata : List (String × String))
  | payoutCreated (idempotency_key : String) (amount : Int) (recipient_account : String)
  | payoutProcessing (idempotency_key : String) (amount : Int)
  | payoutCompleted (idempotency_key : String) (external_payout_id : String)
deriving DecidableEq, Repr

/-- Row of events (class Event in events/models.py). -/
structure Event where
  id : Nat
  event_id : String
  event_type : String
  aggregate_id : String
  aggregate_type : String
  event_data : EventPayload
  metadata : List (String × String)
  sequence_number : Int
deriving DecidableEq, Repr

/-- Row of payouts (class Payout in payouts/models.py).  Wall-clock
    timestamp columns are omitted. -/
structure Payout where
  id : Nat
  idempotency_key : String
  amount : Int
  currency : String
  recipient_account : String
  recipient_name : String
  description : String
  status : PayoutStatus
  ledger_transaction_id : Option String
  external_payout_id : Option String
  external_reference : Option String
  error_message : Option String
  retry_count : Nat
  metadata : List (String × String)
deriving DecidableEq, Repr

/-- Row of payout_events (class PayoutEvent in payouts/models.py). -/
structure PayoutEvent where
  id : Nat
  payout_pk : Nat
  event_type : String
  event_data : List (String × String)
deriving DecidableEq, Repr

/-- Row of account_balances (class AccountBalance in read_models/models.py). -/
structure AccountBalance where
  id : Nat
  account_id : Nat
  balance : Int
  last_event_sequence : Int
deriving DecidableEq, Repr

/-- Row of payout_summaries (class PayoutSummary in read_models/models.py). -/
structure PayoutSummary where
  id : Nat
  payout_pk : Nat
  total_amount : Int
  status : String
  recipient_account : String
deriving DecidableEq, Repr

/-- The relational store: one list per table, plus the primary-key /
    UUID counter. -/
structure DB where
  accounts : List Account
  transactions : List Transaction
  entries : List LedgerEntry
  events : List Event
  payouts : List Payout
  payout_events : List PayoutEvent
  account_balances : List AccountBalance
  payout_summaries : List PayoutSummary
  next_pk : Nat
deriving DecidableEq, Repr

/-- One element of the entries_data argument of
    Transaction.create_transaction. -/
structure EntryData where
  account_id : Nat
  amount : Int
  entry_type : EntryType
  description : String
deriving DecidableEq, Repr

/-- Resulting visible store of an atomic block: the new store on commit,
    the unchanged store on rollback. -/
def commitOr (db : DB) : Except String (α × DB) → DB
  | .ok (_, db1) => db1
  | .error _ => db

/-- Transaction.create_transaction from ledger/models.py: Python-level
    checks (exactly 2 entries, zero sum), then inside one atomic block the
    Transaction insert (unique transaction_id), the two LedgerEntry inserts
    (foreign keys plus the declared check constraint
    ledger_entry_amount_non_negative), and the re-read balance
    verification. -/
def Transaction.create_transaction (db : DB) (transaction_id description : String)
    (entries_data : List EntryData) (metadata : List (String × String)) :
    Except String (Transaction × DB) :=
  if entries_data.length ≠ 2 then
    .error "Double-entry ledger requires exactly 2 entries per transaction"
  else if (entries_data.map (fun e => e.amount)).sum ≠ 0 then
    .error ("Transaction entries must balance to zero. Total: " ++
      toString (entries_data.map (fun e => e.amount)).sum)
  else if db.transactions.any (fun t => t.transaction_id == transaction_id) then
    .error "UNIQUE constraint failed: ledger_transactions.transaction_id"
  else if entries_data.any (fun e => !(db.accounts.any (fun a => a.id == e.account_id))) then
    .error "FOREIGN KEY constraint failed"
  else if entries_data.any (fun e => e.amount < 0) then
    .error "CHECK constraint failed: ledger_entry_amount_non_negative"
  else
    let trans : Transaction :=
      { id := db.next_pk, transaction_id := transaction_id,
        description := description, status := .COMPLETED, metadata := metadata }
    let newEntries : List LedgerEntry := entries_data.enum.map (fun ie =>
      { id := db.next_pk + 1 + ie.1, transaction_pk := trans.id,
        account_id := ie.2.account_id, amount := ie.2.amount,
        entry_type := ie.2.entry_type, description := ie.2.description })
    let db1 : DB :=
      { db with transactions := db.transactions ++ [trans],
                entries := db.entries ++ newEntries,
                next_pk := db.next_pk + 1 + entries_data.length }
    let balance := ((db1.entries.filter (fun e => e.transaction_pk == trans.id)).map
      (fun e => e.amount)).sum
    if balance ≠ 0 then
      .error ("Transaction balance verification failed: " ++ toString balance)
    else
      .ok (trans, db1)

/-- Maximum of a list of sequence numbers, None when the table is empty
    (the SQL Max aggregate in Event.get_next_sequence_number). -/
def maxSeqAux : List Int → Option Int
  | [] => none
  | x :: xs =>
    match maxSeqAux xs with
    | none => some x
    | some m => some (max x m)

/-- Event.get_next_sequence_number from events/models.py:
    (max_seq or 0) + 1. -/
def Event.get_next_sequence_number (db : DB) : Int :=
  (maxSeqAux (db.events.map (fun e => e.sequence_number))).getD 0 + 1

/-- Event.create_event from events/models.py: return the existing row when
    the event_id is already present, otherwise insert with the next
    sequence number (the event_id_not_empty check constraint guards the
    insert). -/
def Event.create_event (db : DB) (event_id event_type aggregate_id aggregate_type : String)
    (event_data : EventPayload) (metadata : List (String × String)) :
    Except String (Event × DB) :=
  match db.events.find? (fun e => e.event_id == event_id) with
  | some e => .ok (e, db)
  | none =>
    if event_id == "" then
      .error "CHECK constraint failed: event_id_not_empty"
    else
      let ev : Event :=
        { id := db.next_pk, event_id := event_id, event_type := event_type,
          aggregate_id := aggregate_id, aggregate_type := aggregate_type,
          event_data := event_data, metadata := metadata,
          sequence_number := Event.get_next_sequence_number db }
      .ok (ev, { db with events := db.events ++ [ev], next_pk := db.next_pk + 1 })

/-- Contribution of one ledger entry to its account balance, as computed by
    the loop in AccountBalance.rebuild_for_account (read_models/models.py). -/
def entryContribution (acct_type : AccountType) (e : LedgerEntry) : Int :=
  match acct_type with
  | .ASSET | .EXPENSE => if e.entry_type = .DEBIT then e.amount else -e.amount
  | _ => if e.entry_type = .CREDIT then e.amount else -e.amount

/-- AccountBalance.rebuild_for_account from read_models/models.py: fold the
    contributions of all entries of the account, then update_or_create the
    AccountBalance row; returns the stored row and the new store. -/
def AccountBalance.rebuild_for_account (db : DB) (account : Account) :
    AccountBalance × DB :=
  let balance := ((db.entries.filter (fun e => e.account_id == account.id)).map
    (entryContribution account.account_type)).sum
  match db.account_balances.find? (fun b => b.account_id == account.id) with
  | some b0 =>
    ({ b0 with balance := balance },
     { db with account_balances := db.account_balances.map (fun r =>
        if r.account_id == account.id then { r with balance := balance } else r) })
  | none =>
    let b : AccountBalance :=
      { id := db.next_pk, account_id := account.id, balance := balance,
        last_event_sequence := 0 }
    (b, { db with account_balances := db.account_balances ++ [b],
                  next_pk := db.next_pk + 1 })

/-- LedgerService.create_transaction from ledger/services.py: inside one
    atomic block, create the transaction with its entries, append the
    LEDGER_TRANSACTION_CREATED event (its event_id carries a uuid4 suffix,
    modelled by the store counter) and rebuild the balance of every
    affected account. -/
def LedgerService.create_transaction (db : DB) (transaction_id description : String)
    (entries_data : List EntryData) (metadata : List (String × String)) :
    Except String (Transaction × DB) := do
  let r1 ← Transaction.create_transaction db transaction_id description
    entries_data metadata
  let trans := r1.1
  let db1 := r1.2
  let entryRows := db1.entries.filter (fun e => e.transaction_pk == trans.id)
  let r2 ← Event.create_event db1
    ("ledger_txn_" ++ transaction_id ++ "_" ++ toString db1.next_pk)
    "LEDGER_TRANSACTION_CREATED" (toString trans.id) "Transaction"
    (.ledgerTxnCreated transaction_id description
      (entryRows.map (fun e => (e.account_id, e.amount, e.entry_type))) metadata) []
  let db2 := r2.2
  let db3 := (entryRows.map (fun e => e.account_id)).foldl (fun d aid =>
    match d.accounts.find? (fun a => a.id == aid) with
    | some a => (AccountBalance.rebuild_for_account d a).2
    | none => d) db2
  .ok (trans, db3)

/-- Default column values supplied to Payout.get_or_create_pending by
    PayoutService.initiate_payout. -/
structure PayoutDefaults where
  amount : Int
  recipient_account : String
  recipient_name : String
  description : String
  metadata : List (String × String)
deriving DecidableEq, Repr

/-- Payout.get_or_create_pending from payouts/models.py: return the
    existing row for the idempotency_key, or insert a new PENDING row
    (guarded by the idempotency_key_not_empty and payout_amount_positive
    check constraints). -/
def Payout.get_or_create_pending (db : DB) (idempotency_key : String)
    (defaults : PayoutDefaults) : Except String ((Payout × Bool) × DB) :=
  match db.payouts.find? (fun p => p.idempotency_key == idempotency_key) with
  | some p => .ok ((p, false), db)
  | none =>
    if idempotency_key == "" then
      .error "CHECK constraint failed: idempotency_key_not_empty"
    else if defaults.amount ≤ 0 then
      .error "CHECK constraint failed: payout_amount_positive"
    else
      let p : Payout :=
        { id := db.next_pk, idempotency_key := idempotency_key,
          amount := defaults.amount, currency := "USD",
          recipient_account := defaults.recipient_account,
          recipient_name := defaults.recipient_name,
          description := defaults.description, status := .PENDING,
          ledger_transaction_id := none, external_payout_id := none,
          external_reference := none, error_message := none,
          retry_count := 0, metadata := defaults.metadata }
      .ok ((p, true), { db with payouts := db.payouts ++ [p],
                                next_pk := db.next_pk + 1 })

/-- Payout.mark_processing from payouts/models.py: re-read the row under
    lock, raise unless it is PENDING, otherwise set PROCESSING. -/
def Payout.mark_processing (db : DB) (pk : Nat) : Except String (Payout × DB) :=
  match db.payouts.find? (fun p => p.id == pk) with
  | none => .error "Payout matching query does not exist."
  | some p =>
    if p.status ≠ PayoutStatus.PENDING then
      .error ("Cannot process payout in status: " ++ p.status.str)
    else
      let p1 := { p with status := PayoutStatus.PROCESSING }
      .ok (p1, { db with payouts := db.payouts.map (fun q =>
        if q.id == pk then p1 else q) })

/-- Payout.mark_completed from payouts/models.py: unconditionally set
    COMPLETED, filling the external tracking fields when given. -/
def Payout.mark_completed (db : DB) (pk : Nat)
    (external_payout_id external_reference : Option String) : DB :=
  { db with payouts := db.payouts.map (fun q =>
    if q.id == pk then
      { q with status := PayoutStatus.COMPLETED,
               external_payout_id :=
                 match external_payout_id with
                 | some e => some e
                 | none => q.external_payout_id,
               external_reference :=
                 match external_reference with
                 | some r => some r
                 | none => q.external_reference }
    else q) }

/-- Payout.mark_failed from payouts/models.py: unconditionally set FAILED,
    record the error message and increment retry_count. -/
def Payout.mark_failed (db : DB) (pk : Nat) (error_message : String) : DB :=
  { db with payouts := db.payouts.map (fun q =>
    if q.id == pk then
      { q with status := PayoutStatus.FAILED,
               error_message := some error_message,
               retry_count := q.retry_count + 1 }
    else q) }

/-- PayoutService.initiate_payout from payouts/services.py: idempotent
    admission.  When the key is new, insert the PENDING payout, its CREATED
    PayoutEvent, the PAYOUT_CREATED event and the PayoutSummary row; when
    the key exists, return the stored payout untouched. -/
def PayoutService.initiate_payout (db : DB) (idempotency_key : String) (amount : Int)
    (recipient_account : String) (recipient_name description : Option String)
    (metadata : Option (List (String × String))) : Except String (Payout × DB) := do
  let r1 ← Payout.get_or_create_pending db idempotency_key
    { amount := amount, recipient_account := recipient_account,
      recipient_name := recipient_name.getD "",
      description := description.getD "",
      metadata := metadata.getD [] }
  let payout := r1.1.1
  let created := r1.1.2
  let db1 := r1.2
  if !created then
    .ok (payout, db1)
  else
    let pe : PayoutEvent :=
      { id := db1.next_pk, payout_pk := payout.id, event_type := "CREATED",
        event_data := [("idempotency_key", idempotency_key),
                       ("amount", toString amount),
                       ("recipient_account", recipient_account)] }
    let db2 : DB :=
      { db1 with payout_events := db1.payout_events ++ [pe],
                 next_pk := db1.next_pk + 1 }
    let r2 ← Event.create_event db2
      ("payout_created_" ++ idempotency_key ++ "_" ++ toString db2.next_pk)
      "PAYOUT_CREATED" (toString payout.id) "Payout"
      (.payoutCreated idempotency_key amount recipient_account) []
    let db3 := r2.2
    let ps : PayoutSummary :=
      { id := db3.next_pk, payout_pk := payout.id, total_amount := amount,
        status := "PENDING", recipient_account := recipient_account }
    .ok (payout, { db3 with payout_summaries := db3.payout_summaries ++ [ps],
                            next_pk := db3.next_pk + 1 })

/-- In-memory payout instance after Payout.mark_failed mutated self. -/
def Payout.failedInstance (p : Payout) (msg : String) : Payout :=
  { p with status := PayoutStatus.FAILED, error_message := some msg,
           retry_count := p.retry_count + 1 }

/-- PayoutService.process_payout from payouts/services.py: mark PROCESSING
    (raising on any other status), write the PROCESSING_STARTED trail and
    PAYOUT_PROCESSING event, then try to post the ledger transaction
    payout_ plus idempotency_key with a DEBIT and a CREDIT entry both
    carrying payout.amount; any exception there is caught and the payout is
    marked FAILED.  The external initiation is scheduled asynchronously and
    happens outside this atomic block. -/
def PayoutService.process_payout (db : DB) (payout : Payout) :
    Except String (Payout × DB) := do
  let r1 ← Payout.mark_processing db payout.id
  let p1 := r1.1
  let db1 := r1.2
  let pe : PayoutEvent :=
    { id := db1.next_pk, payout_pk := p1.id,
      event_type := "PROCESSING_STARTED", event_data := [] }
  let db2 : DB :=
    { db1 with payout_events := db1.payout_events ++ [pe],
               next_pk := db1.next_pk + 1 }
  let r2 ← Event.create_event db2
    ("payout_processing_" ++ p1.idempotency_key ++ "_" ++ toString db2.next_pk)
    "PAYOUT_PROCESSING" (toString p1.id) "Payout"
    (.payoutProcessing p1.idempotency_key p1.amount) []
  let db3 := r2.2
  match db3.accounts.find? (fun a => a.account_code == "CASH_001"),
        db3.accounts.find? (fun a => a.account_code == "PAYOUT_LIABILITY_001") with
  | some cash_account, some liability_account =>
    let transaction_id := "payout_" ++ p1.idempotency_key
    match LedgerService.create_transaction db3 transaction_id
        ("Payout to " ++ p1.recipient_account)
        [ { account_id := liability_account.id, amount := p1.amount,
            entry_type := .DEBIT, description := "Payout liability debit" },
          { account_id := cash_account.id, amount := p1.amount,
            entry_type := .CREDIT, description := "Cash payout credit" } ]
        [("payout_id", toString p1.id)] with
    | .error e =>
      .ok (Payout.failedInstance p1 e, Payout.mark_failed db3 p1.id e)
    | .ok (ledger_trans, db4) =>
      let p2 := { p1 with ledger_transaction_id := some ledger_trans.transaction_id }
      let db5 : DB := { db4 with payouts := db4.payouts.map (fun q =>
        if q.id == p1.id then
          { q with ledger_transaction_id := some ledger_trans.transaction_id }
        else q) }
      let pe2 : PayoutEvent :=
        { id := db5.next_pk, payout_pk := p1.id,
          event_type := "LEDGER_ENTRY_CREATED",
          event_data := [("transaction_id", transaction_id)] }
      .ok (p2, { db5 with payout_events := db5.payout_events ++ [pe2],
                          next_pk := db5.next_pk + 1 })
  | _, _ =>
    .ok (Payout.failedInstance p1 "Required accounts not found",
         Payout.mark_failed db3 p1.id "Required accounts not found")

/-- Structured result of a task handler: done carries the returned result
    map, retry models the raised self.retry re-enqueue. -/
inductive TaskOutcome where
  | done (msg : String)
  | retry (err : String)
deriving DecidableEq, Repr

/-- process_payout_task from payouts/tasks.py: skip COMPLETED and FAILED
    payouts, otherwise call PayoutService.process_payout; an exception
    rolls the atomic service call back and re-enqueues the task. -/
def process_payout_task (db : DB) (payout_id : Nat) : TaskOutcome × DB :=
  match db.payouts.find? (fun p => p.id == payout_id) with
  | none => (.done "Payout not found", db)
  | some payout =>
    if payout.status = PayoutStatus.COMPLETED ∨ payout.status = PayoutStatus.FAILED then
      (.done "Already processed", db)
    else
      match PayoutService.process_payout db payout with
      | .ok (_, db1) => (.done "processed", db1)
      | .error e => (.retry e, db)

/-- initiate_external_payout from payouts/tasks.py: guarded by status and
    by the stored external_payout_id; on the active path it writes the
    EXTERNAL_PAYOUT_INITIATED trail, stores the simulated external id and
    schedules complete_external_payout with it (returned as some). -/
def initiate_external_payout (db : DB) (payout_id : Nat) :
    (TaskOutcome × Option String) × DB :=
  match db.payouts.find? (fun p => p.id == payout_id) with
  | none => ((.done "Payout not found", none), db)
  | some payout =>
    if payout.status = PayoutStatus.COMPLETED then
      ((.done "Already completed", none), db)
    else if payout.status ≠ PayoutStatus.PROCESSING then
      ((.done "Invalid state", none), db)
    else
      match payout.external_payout_id with
      | some _ => ((.done "already_initiated", none), db)
      | none =>
        let ext := "ext_" ++ payout.idempotency_key ++ "_" ++ toString db.next_pk
        let pe : PayoutEvent :=
          { id := db.next_pk, payout_pk := payout.id,
            event_type := "EXTERNAL_PAYOUT_INITIATED",
            event_data := [("external_payout_id", ext)] }
        let db1 : DB := { db with payout_events := db.payout_events ++ [pe],
                                  next_pk := db.next_pk + 1 }
        let db2 : DB := { db1 with payouts := db1.payouts.map (fun q =>
          if q.id == payout.id then { q with external_payout_id := some ext } else q) }
        ((.done "initiated", some ext), db2)

/-- complete_external_payout from payouts/tasks.py: verify the stored
    external id, skip COMPLETED payouts, otherwise write the
    EXTERNAL_PAYOUT_COMPLETED trail, mark the payout COMPLETED, append the
    PAYOUT_COMPLETED event and finalize the PayoutSummary.  The task body
    opens no atomic block, so earlier writes persist if a later step
    raises. -/
def complete_external_payout (db : DB) (payout_id : Nat)
    (external_payout_id : String) : TaskOutcome × DB :=
  match db.payouts.find? (fun p => p.id == payout_id) with
  | none => (.done "Payout not found", db)
  | some payout =>
    if payout.external_payout_id ≠ some external_payout_id then
      (.done "External payout ID mismatch", db)
    else if payout.status = PayoutStatus.COMPLETED then
      (.done "Already completed", db)
    else
      let pe : PayoutEvent :=
        { id := db.next_pk, payout_pk := payout.id,
          event_type := "EXTERNAL_PAYOUT_COMPLETED",
          event_data := [("external_payout_id", external_payout_id)] }
      let db1 : DB := { db with payout_events := db.payout_events ++ [pe],
                                next_pk := db.next_pk + 1 }
      let db2 := Payout.mark_completed db1 payout.id (some external_payout_id)
        (some ("ref_" ++ external_payout_id))
      match Event.create_event db2
          ("payout_completed_" ++ payout.idempotency_key ++ "_" ++ toString db2.next_pk)
          "PAYOUT_COMPLETED" (toString payout.id) "Payout"
          (.payoutCompleted payout.idempotency_key external_payout_id) [] with
      | .error e => (.retry e, db2)
      | .ok (_, db3) =>
        (.done "completed",
         { db3 with payout_summaries := db3.payout_summaries.map (fun s =>
            if s.payout_pk == payout.id then { s with status := "COMPLETED" } else s) })

/-- Whole worker pipeline for one payout: the process task, then the
    external-initiation task, then the completion task it scheduled. -/
def run_worker (db : DB) (payout_id : Nat) : DB :=
  let s1 := process_payout_task db payout_id
  let s2 := initiate_external_payout s1.2 payout_id
  match s2.1.2 with
  | some ext => (complete_external_payout s2.2 payout_id ext).2
  | none => s2.2

/-- Store seeded by the init_accounts management command: the two
    operational accounts CASH_001 (ASSET) and PAYOUT_LIABILITY_001
    (LIABILITY). -/
def seedDB : DB :=
  { accounts :=
      [ { id := 0, account_code := "CASH_001", name := "Cash Account",
          account_type := .ASSET },
        { id := 1, account_code := "PAYOUT_LIABILITY_001",
          name := "Payout Liability Account", account_type := .LIABILITY } ],
    transactions := [], entries := [], events := [], payouts := [],
    payout_events := [], account_balances := [], payout_summaries := [],
    next_pk := 2 }

/-- Rows of ledger_transactions carrying a given transaction_id. -/
def transactionsWithId (db : DB) (tid : String) : List Transaction :=
  db.transactions.filter (fun t => t.transaction_id == tid)

/-- Rows of ledger_entries belonging to a transaction with the given
    transaction_id. -/
def entriesForTransactionId (db : DB) (tid : String) : List LedgerEntry :=
  db.entries.filter (fun e =>
    (transactionsWithId db tid).any (fun t => t.id == e.transaction_pk))

/-- Ledger transaction_id carried inside an event payload, when any. -/
def payloadTransactionId : EventPayload → Option String
  | .ledgerTxnCreated t _ _ _ => some t
  | _ => none

/-- LEDGER_TRANSACTION_CREATED events whose payload names the given
    transaction_id. -/
def ledgerCreatedEventsFor (db : DB) (tid : String) : List Event :=
  db.events.filter (fun ev => ev.event_type == "LEDGER_TRANSACTION_CREATED" &&
    payloadTransactionId ev.event_data == some tid)

/-- Status of the payout row with the given primary key. -/
def payoutStatusIn (db : DB) (pk : Nat) : Option PayoutStatus :=
  (db.payouts.find? (fun p => p.id == pk)).map (fun p => p.status)

/-- Value of a successful Except computation, with a fallback. -/
def exceptGet (dflt : α) : Except String α → α
  | .ok a => a
  | .error _ => dflt

/-! Helper lemmas about list search, used to reason about row lookups. -/

theorem find?_append_of_none {α} {p : α → Bool} {l1 : List α} (l2 : List α)
    (h : l1.find? p = none) : (l1 ++ l2).find? p = l2.find? p := by
  simp [List.find?_append, h]

theorem filter_of_find?_none {α} {p : α → Bool} {l : List α}
    (h : l.find? p = none) : l.filter p = [] := by
  rw [List.filter_eq_nil_iff]
  rw [List.find?_eq_none] at h
  intro a ha
  simpa using h a ha

theorem maxSeqAux_eq_none {l : List Int} (h : maxSeqAux l = none) : l = [] := by
  cases l with
  | nil => rfl
  | cons y ys =>
    cases hys : maxSeqAux ys <;> simp [maxSeqAux, hys] at h

theorem le_maxSeqAux_of_mem {x : Int} {l : List Int} (h : x ∈ l) :
    x ≤ (maxSeqAux l).getD 0 := by
  induction l with
  | nil => cases h
  | cons y ys ih =>
    cases h with
    | head =>
      cases hys : maxSeqAux ys <;> simp [maxSeqAux, hys]
    | tail _ hmem =>
      cases hys : maxSeqAux ys with
      | none => rw [maxSeqAux_eq_none hys] at hmem; cases hmem
      | some m =>
        have hx := ih hmem
        rw [hys] at hx
        simp only [Option.getD_some] at hx
        simp [maxSeqAux, hys]
        right
        exact hx

theorem map_if_eq_self {α} {p : α → Bool} {f : α → α} {l : List α}
    (h : ∀ r ∈ l, p r = false) :
    l.map (fun r => if p r then f r else r) = l := by
  induction l with
  | nil => rfl
  | cons a as ih =>
    have ha := h a (by simp)
    simp only [List.map_cons, ha, Bool.false_eq_true, if_false]
    rw [ih (fun r hr => h r (by simp [hr]))]

/-- C4: Event.create_event is idempotent on event_id: after a first call
    inserted the event, exactly one row with that event_id is in the log,
    and any later call with the same event_id returns the identical record
    and leaves the store untouched, consuming no new sequence number. -/
theorem claim_c4_event_append_idempotent (db : DB)
    (event_id event_type aggregate_id aggregate_type : String)
    (event_data : EventPayload) (metadata : List (String × String))
    (e : Event) (db1 : DB)
    (hFresh : db.events.find? (fun x => x.event_id == event_id) = none)
    (h : Event.create_event db event_id event_type aggregate_id aggregate_type
           event_data metadata = .ok (e, db1)) :
    db1.events.filter (fun x => x.event_id == event_id) = [e] ∧
    ∀ t2 a2 g2 d2 m2,
      Event.create_event db1 event_id t2 a2 g2 d2 m2 = .ok (e, db1) := by
  unfold Event.create_event at h
  rw [hFresh] at h
  by_cases hid : (event_id == "") = true
  · rw [if_pos hid] at h
    cases h
  · rw [if_neg hid] at h
    injection h with h2
    injection h2 with hA hB
    subst hA
    subst hB
    constructor
    · simp only [List.filter_append, filter_of_find?_none hFresh]
      simp [List.filter]
    · intro t2 a2 g2 d2 m2
      unfold Event.create_event
      simp only [find?_append_of_none _ hFresh]
      simp [List.find?]

/-- C5: Event sequence numbers are strictly monotonic: a freshly inserted
    event receives a sequence number strictly greater than that of every
    event already stored, and it is itself stored afterwards, so of two
    committed inserts the earlier one carries the smaller number. -/
theorem claim_c5_sequence_monotonic (db : DB)
    (event_id event_type aggregate_id aggregate_type : String)
    (event_data : EventPayload) (metadata : List (String × String))
    (e2 : Event) (db1 : DB)
    (hFresh : db.events.find? (fun x => x.event_id == event_id) = none)
    (h : Event.create_event db event_id event_type aggregate_id aggregate_type
           event_data metadata = .ok (e2, db1)) :
    (∀ e1 ∈ db.events, e1.sequence_number < e2.sequence_number) ∧
    e2 ∈ db1.events := by
  unfold Event.create_event at h
  rw [hFresh] at h
  by_cases hid : (event_id == "") = true
  · rw [if_pos hid] at h
    cases h
  · rw [if_neg hid] at h
    injection h with h2
    injection h2 with hA hB
    subst hA
    subst hB
    constructor
    · intro e1 h1
      show e1.sequence_number < Event.get_next_sequence_number db
      unfold Event.get_next_sequence_number
      have hle : e1.sequence_number ≤
          (maxSeqAux (db.events.map (fun e => e.sequence_number))).getD 0 :=
        le_maxSeqAux_of_mem (List.mem_map_of_mem (fun e => e.sequence_number) h1)
      omega
    · simp

theorem service_error_of_model_error (db : DB) (tid d : String)
    (es : List EntryData) (m : List (String × String))
    (h : (Transaction.create_transaction db tid d es m).isOk = false) :
    (LedgerService.create_transaction db tid d es m).isOk = false := by
  unfold LedgerService.create_transaction
  cases hT : Transaction.create_transaction db tid d es m with
  | error e => simp [Bind.bind, Except.bind, hT, Except.isOk, Except.toBool]
  | ok r => rw [hT] at h; simp [Except.isOk, Except.toBool] at h

theorem snd_mem_of_mem_enumFrom {α} {l : List α} :
    ∀ {n : Nat} {ie : Nat × α}, ie ∈ l.enumFrom n → ie.2 ∈ l := by
  induction l with
  | nil => intro n ie h; cases h
  | cons a as ih =>
    intro n ie h
    simp only [List.enumFrom, List.mem_cons] at h
    rcases h with h | h
    · subst h; simp
    · exact List.mem_cons_of_mem _ (ih h)

/-- C1: every transaction committed through Transaction.create_transaction
    has exactly two LedgerEntry rows whose amounts sum to zero, and the
    call (and hence LedgerService.create_transaction) fails whenever the
    supplied entries number other than two or do not sum to zero. -/
theorem claim_c1_two_entries_zero_sum (db : DB) (tid d : String)
    (es : List EntryData) (m : List (String × String))
    (hWf : ∀ en ∈ db.entries, en.transaction_pk ≠ db.next_pk) :
    (∀ t db1, Transaction.create_transaction db tid d es m = .ok (t, db1) →
       (db1.entries.filter (fun en => en.transaction_pk == t.id)).length = 2 ∧
       ((db1.entries.filter (fun en => en.transaction_pk == t.id)).map
         (fun en => en.amount)).sum = 0) ∧
    (es.length ≠ 2 ∨ (es.map (fun e => e.amount)).sum ≠ 0 →
       (Transaction.create_transaction db tid d es m).isOk = false ∧
       (LedgerService.create_transaction db tid d es m).isOk = false) := by
  constructor
  · intro t db1 h
    unfold Transaction.create_transaction at h
    split at h
    · cases h
    split at h
    · cases h
    split at h
    · cases h
    split at h
    · cases h
    split at h
    · cases h
    simp only [] at h
    split at h
    · cases h
    next hlen _ _ _ _ hbal =>
      injection h with h2
      injection h2 with hA hB
      subst hA
      subst hB
      dsimp only
      have hlen2 : es.length = 2 := by omega
      have hold : db.entries.filter
          (fun en => en.transaction_pk == db.next_pk) = [] := by
        rw [List.filter_eq_nil_iff]
        intro en hen
        simpa using hWf en hen
      have hnew : (es.enum.map (fun ie =>
          ({ id := db.next_pk + 1 + ie.1, transaction_pk := db.next_pk,
             account_id := ie.2.account_id, amount := ie.2.amount,
             entry_type := ie.2.entry_type,
             description := ie.2.description } : LedgerEntry))).filter
          (fun en => en.transaction_pk == db.next_pk)
          = es.enum.map (fun ie =>
          ({ id := db.next_pk + 1 + ie.1, transaction_pk := db.next_pk,
             account_id := ie.2.account_id, amount := ie.2.amount,
             entry_type := ie.2.entry_type,
             description := ie.2.description } : LedgerEntry)) := by
        rw [List.filter_eq_self]
        intro x hx
        rcases List.mem_map.mp hx with ⟨ie, _, hxe⟩
        subst hxe
        simp
      constructor
      · simp only [List.filter_append, hold, hnew, List.nil_append,
          List.length_map, List.enum_length]
        exact hlen2
      · omega
  · intro hOr
    have hModel : (Transaction.create_transaction db tid d es m).isOk = false := by
      by_cases h2 : es.length ≠ 2
      · unfold Transaction.create_transaction
        rw [if_pos h2]
        rfl
      · have hs : (es.map (fun e => e.amount)).sum ≠ 0 := hOr.resolve_left h2
        unfold Transaction.create_transaction
        rw [if_neg h2, if_pos hs]
        rfl
    exact ⟨hModel, service_error_of_model_error db tid d es m hModel⟩

/-- C6: posting two entries whose amounts do not sum to zero through
    LedgerService.create_transaction fails, the visible store after the
    rolled-back atomic block is the original one, and that store holds no
    Transaction row, no LedgerEntry row and no LEDGER_TRANSACTION_CREATED
    event for the rejected transaction_id. -/
theorem claim_c6_unbalanced_rejected_atomically (db : DB) (tid d : String)
    (ea eb : EntryData) (m : List (String × String))
    (hSum : ea.amount + eb.amount ≠ 0)
    (hT : transactionsWithId db tid = [])
    (hEv : ledgerCreatedEventsFor db tid = []) :
    (LedgerService.create_transaction db tid d [ea, eb] m).isOk = false ∧
    commitOr db (LedgerService.create_transaction db tid d [ea, eb] m) = db ∧
    transactionsWithId
      (commitOr db (LedgerService.create_transaction db tid d [ea, eb] m)) tid = [] ∧
    entriesForTransactionId
      (commitOr db (LedgerService.create_transaction db tid d [ea, eb] m)) tid = [] ∧
    ledgerCreatedEventsFor
      (commitOr db (LedgerService.create_transaction db tid d [ea, eb] m)) tid = [] := by
  have hs : (([ea, eb].map (fun e => e.amount)).sum ≠ (0 : Int)) := by
    simpa using hSum
  have hModel : Transaction.create_transaction db tid d [ea, eb] m =
      .error ("Transaction entries must balance to zero. Total: " ++
        toString ([ea, eb].map (fun e => e.amount)).sum) := by
    unfold Transaction.create_transaction
    rw [if_neg (by simp), if_pos hs]
  have hSrv : LedgerService.create_transaction db tid d [ea, eb] m =
      .error ("Transaction entries must balance to zero. Total: " ++
        toString ([ea, eb].map (fun e => e.amount)).sum) := by
    unfold LedgerService.create_transaction
    rw [hModel]
    rfl
  rw [hSrv]
  refine ⟨rfl, rfl, ?_, ?_, ?_⟩
  · exact hT
  · show entriesForTransactionId db tid = []
    unfold entriesForTransactionId
    rw [hT]
    simp [List.filter_eq_nil_iff]
  · exact hEv

/-- C10: the ledger_entry_amount_non_negative check constraint keeps every
    persisted LedgerEntry non-negative: a successful
    Transaction.create_transaction preserves non-negativity of all stored
    entry amounts, and a call whose input carries a negative amount cannot
    commit. -/
theorem claim_c10_entries_nonnegative (db : DB) (tid d : String)
    (es : List EntryData) (m : List (String × String)) :
    (∀ t db1, Transaction.create_transaction db tid d es m = .ok (t, db1) →
       (∀ e ∈ db.entries, 0 ≤ e.amount) → ∀ e ∈ db1.entries, 0 ≤ e.amount) ∧
    ((∃ e ∈ es, e.amount < 0) →
       (Transaction.create_transaction db tid d es m).isOk = false) := by
  constructor
  · intro t db1 h hNN e he
    unfold Transaction.create_transaction at h
    split at h
    · cases h
    split at h
    · cases h
    split at h
    · cases h
    split at h
    · cases h
    split at h
    · cases h
    simp only [] at h
    split at h
    · cases h
    next hlen hsum hdup hfk hneg hbal =>
      injection h with h2
      injection h2 with hA hB
      subst hB
      simp only [List.mem_append] at he
      rcases he with he | he
      · exact hNN e he
      · rcases List.mem_map.mp he with ⟨ie, hie, hxe⟩
        subst hxe
        have : ¬ ie.2.amount < 0 := by
          intro hlt
          exact hneg (List.any_eq_true.mpr
            ⟨ie.2, snd_mem_of_mem_enumFrom hie, by simpa using hlt⟩)
        simpa using le_of_not_lt this
  · rintro ⟨e, he, hlt⟩
    unfold Transaction.create_transaction
    split
    · rfl
    split
    · rfl
    split
    · rfl
    split
    · rfl
    split
    · rfl
    next hneg =>
      exact absurd (List.any_eq_true.mpr ⟨e, he, by simpa using hlt⟩) hneg

/-! Concrete rows and fallback values used by the witness statements. -/

def dfltTransaction : Transaction :=
  { id := 0, transaction_id := "none", description := "",
    status := .FAILED, metadata := [] }

def dfltEvent : Event :=
  { id := 0, event_id := "none", event_type := "", aggregate_id := "",
    aggregate_type := "", event_data := .payoutProcessing "" 0,
    metadata := [], sequence_number := 0 }

def c1entries : List EntryData :=
  [ { account_id := 0, amount := 0, entry_type := .DEBIT, description := "" },
    { account_id := 1, amount := 0, entry_type := .CREDIT, description := "" } ]

def c1res : Transaction × DB :=
  exceptGet (dfltTransaction, seedDB)
    (Transaction.create_transaction seedDB "t1" "d" c1entries [])

theorem claim_c1_witness :
    ((c1res.2.entries.filter (fun en => en.transaction_pk == c1res.1.id)).length = 2 ∧
     ((c1res.2.entries.filter (fun en => en.transaction_pk == c1res.1.id)).map
       (fun en => en.amount)).sum = 0) ∧
    (Transaction.create_transaction seedDB "t2" "d" [] []).isOk = false ∧
    (LedgerService.create_transaction seedDB "t2" "d" [] []).isOk = false := by
  have H := claim_c1_two_entries_zero_sum seedDB "t1" "d" c1entries []
    (by intro en hen; simp [seedDB] at hen)
  have H2 := claim_c1_two_entries_zero_sum seedDB "t2" "d" [] []
    (by intro en hen; simp [seedDB] at hen)
  exact ⟨H.1 c1res.1 c1res.2 (by rfl), H2.2 (Or.inl (by decide))⟩

def c4res : Event × DB :=
  exceptGet (dfltEvent, seedDB)
    (Event.create_event seedDB "w4" "PAYOUT_CREATED" "a" "Payout"
      (.payoutCreated "k" 100 "r") [])

theorem claim_c4_witness :
    c4res.2.events.filter (fun x => x.event_id == "w4") = [c4res.1] ∧
    Event.create_event c4res.2 "w4" "PAYOUT_FAILED" "b" "Payout"
      (.payoutProcessing "z" 5) [("k", "v")] = .ok (c4res.1, c4res.2) := by
  have H := claim_c4_event_append_idempotent seedDB "w4" "PAYOUT_CREATED" "a"
    "Payout" (.payoutCreated "k" 100 "r") [] c4res.1 c4res.2 (by rfl) (by rfl)
  exact ⟨H.1, H.2 "PAYOUT_FAILED" "b" "Payout" (.payoutProcessing "z" 5) [("k", "v")]⟩

def c5r1 : Event × DB :=
  exceptGet (dfltEvent, seedDB)
    (Event.create_event seedDB "w5a" "PAYOUT_CREATED" "a" "Payout"
      (.payoutCreated "k" 100 "r") [])

def c5r2 : Event × DB :=
  exceptGet (dfltEvent, seedDB)
    (Event.create_event c5r1.2 "w5b" "PAYOUT_PROCESSING" "a" "Payout"
      (.payoutProcessing "k" 100) [])

theorem claim_c5_witness :
    c5r1.1.sequence_number < c5r2.1.sequence_number := by
  have H := claim_c5_sequence_monotonic c5r1.2 "w5b" "PAYOUT_PROCESSING" "a"
    "Payout" (.payoutProcessing "k" 100) [] c5r2.1 c5r2.2 (by rfl) (by rfl)
  exact H.1 c5r1.1 (by decide)

def c6ea : EntryData :=
  { account_id := 0, amount := 10000, entry_type := .DEBIT, description := "" }

def c6eb : EntryData :=
  { account_id := 1, amount := -5000, entry_type := .CREDIT, description := "" }

theorem claim_c6_witness :
    (LedgerService.create_transaction seedDB "t_bad" "d" [c6ea, c6eb] []).isOk = false ∧
    commitOr seedDB (LedgerService.create_transaction seedDB "t_bad" "d" [c6ea, c6eb] []) = seedDB ∧
    transactionsWithId
      (commitOr seedDB (LedgerService.create_transaction seedDB "t_bad" "d" [c6ea, c6eb] [])) "t_bad" = [] ∧
    entriesForTransactionId
      (commitOr seedDB (LedgerService.create_transaction seedDB "t_bad" "d" [c6ea, c6eb] [])) "t_bad" = [] ∧
    ledgerCreatedEventsFor
      (commitOr seedDB (LedgerService.create_transaction seedDB "t_bad" "d" [c6ea, c6eb] [])) "t_bad" = [] :=
  claim_c6_unbalanced_rejected_atomically seedDB "t_bad" "d" c6ea c6eb []
    (by decide) (by decide) (by decide)

def c10neg : EntryData :=
  { account_id := 0, amount := -100, entry_type := .DEBIT, description := "" }

def c10res : Transaction × DB :=
  exceptGet (dfltTransaction, seedDB)
    (Transaction.create_transaction seedDB "t3" "d" c1entries [])

theorem claim_c10_witness :
    c10res.2.entries.all (fun e => 0 ≤ e.amount) = true ∧
    (Transaction.create_transaction seedDB "t4" "d" [c10neg] []).isOk = false := by
  have H := claim_c10_entries_nonnegative seedDB "t3" "d" c1entries []
  have H4 := claim_c10_entries_nonnegative seedDB "t4" "d" [c10neg] []
  constructor
  · have hall := H.1 c10res.1 c10res.2 (by rfl)
      (by intro e he; simp [seedDB] at he)
    exact List.all_eq_true.mpr (fun e he => by simpa using hall e he)
  · exact H4.2 ⟨c10neg, by simp, by decide⟩

/-- Store after admitting payout k1 for 100.00 against the seeded accounts
    and running the whole worker pipeline on it. -/
def c2post : DB :=
  match PayoutService.initiate_payout seedDB "k1" 10000 "r1" none none none with
  | .ok r => run_worker r.2 r.1.id
  | .error _ => seedDB

/-- C2: evaluation of the worker on a PENDING payout admitted with key k1
    and amount 100.00, with CASH_001 and PAYOUT_LIABILITY_001 present.
    Both ledger entries are posted with the positive payout amount, so
    their sum is twice the amount, the zero-sum check rejects the
    transaction, and the run ends with the payout FAILED, no
    ledger_transaction_id recorded and no transaction payout_k1 — not
    COMPLETED with a balanced transaction as specified. -/
theorem claim_c2_worker_leaves_payout_failed :
    (PayoutService.initiate_payout seedDB "k1" 10000 "r1" none none none).isOk = true ∧
    ((PayoutService.initiate_payout seedDB "k1" 10000 "r1" none none none).toOption.map
      (fun r => (r.1.id, r.1.idempotency_key, r.1.status))) =
      some (2, "k1", .PENDING) ∧
    payoutStatusIn c2post 2 = some .FAILED ∧
    ((c2post.payouts.find? (fun q => q.id == 2)).map
      (fun q => (q.ledger_transaction_id, q.error_message))) =
      some (none, some "Transaction entries must balance to zero. Total: 20000") ∧
    transactionsWithId c2post "payout_k1" = [] ∧
    c2post.entries = [] := by
  decide

/-- Payout row stuck in PROCESSING, as left behind by a worker crash
    before completion. -/
def c7payout : Payout :=
  { id := 2, idempotency_key := "k7", amount := 10000, currency := "USD",
    recipient_account := "r", recipient_name := "", description := "",
    status := .PROCESSING, ledger_transaction_id := none,
    external_payout_id := none, external_reference := none,
    error_message := none, retry_count := 0, metadata := [] }

def c7db : DB := { seedDB with payouts := [c7payout], next_pk := 3 }

/-- C7: evaluation of Payout.mark_processing on a payout already in
    PROCESSING.  The code raises (Cannot process payout in status:
    PROCESSING) instead of returning the payout unchanged as a no-op, so
    the worker entry point is not idempotent against re-delivery. -/
theorem claim_c7_mark_processing_raises_on_processing :
    Payout.mark_processing c7db 2 =
      .error "Cannot process payout in status: PROCESSING" := by
  rfl

def c8payout : Payout :=
  { id := 2, idempotency_key := "k8", amount := 10000, currency := "USD",
    recipient_account := "r", recipient_name := "", description := "",
    status := .CANCELLED, ledger_transaction_id := none,
    external_payout_id := none, external_reference := none,
    error_message := none, retry_count := 0, metadata := [] }

def c8db : DB := { seedDB with payouts := [c8payout], next_pk := 3 }

/-- C8 counterexample: a payout in the terminal status CANCELLED is moved
    to COMPLETED by Payout.mark_completed, one of the operations the claim
    quantifies over, so terminal states are not absorbing as stated. -/
theorem claim_c8_counterexample_mark_completed_overrides_cancelled :
    payoutStatusIn c8db 2 = some .CANCELLED ∧
    payoutStatusIn (Payout.mark_completed c8db 2 none none) 2 = some .COMPLETED := by
  decide

/-- C8 amended: terminal statuses are preserved by the guarded operations:
    mark_processing fails without committing on a non-PENDING payout,
    process_payout_task and initiate_external_payout leave the status of a
    COMPLETED, FAILED or CANCELLED payout unchanged, and
    complete_external_payout leaves a COMPLETED payout unchanged; only the
    unguarded mark_completed and mark_failed writes (and
    complete_external_payout on a FAILED or CANCELLED payout whose
    external id matches) can overwrite a terminal status. -/
theorem claim_c8_amended_guarded_operations_preserve_terminal
    (db : DB) (pk : Nat) (p : Payout)
    (hp : db.payouts.find? (fun q => q.id == pk) = some p)
    (hTerm : p.status = .COMPLETED ∨ p.status = .FAILED ∨ p.status = .CANCELLED) :
    payoutStatusIn (process_payout_task db pk).2 pk = some p.status ∧
    payoutStatusIn (initiate_external_payout db pk).2 pk = some p.status ∧
    (Payout.mark_processing db pk).isOk = false ∧
    (p.status = .COMPLETED →
      ∀ ext, payoutStatusIn (complete_external_payout db pk ext).2 pk = some p.status) := by
  have hpid : p.id = pk := by
    have := List.find?_some hp
    simpa using this
  have hbase : payoutStatusIn db pk = some p.status := by
    unfold payoutStatusIn
    rw [hp]
    rfl
  have hnp : p.status ≠ PayoutStatus.PENDING := by
    rcases hTerm with h | h | h <;> simp [h]
  have hmp : Payout.mark_processing db pk =
      .error ("Cannot process payout in status: " ++ p.status.str) := by
    unfold Payout.mark_processing
    rw [hp]
    dsimp only
    rw [if_pos hnp]
  refine ⟨?_, ?_, ?_, ?_⟩
  · unfold process_payout_task
    rw [hp]
    dsimp only
    rcases hTerm with h | h | h
    · rw [if_pos (Or.inl h)]
      exact hbase
    · rw [if_pos (Or.inr h)]
      exact hbase
    · rw [if_neg (by simp [h])]
      have hpp : PayoutService.process_payout db p =
          .error ("Cannot process payout in status: " ++ p.status.str) := by
        unfold PayoutService.process_payout
        rw [hpid, hmp]
        rfl
      rw [hpp]
      exact hbase
  · unfold initiate_external_payout
    rw [hp]
    dsimp only
    rcases hTerm with h | h | h
    · rw [if_pos h]
      exact hbase
    · rw [if_neg (by simp [h]), if_pos (by simp [h])]
      exact hbase
    · rw [if_neg (by simp [h]), if_pos (by simp [h])]
      exact hbase
  · rw [hmp]
    rfl
  · intro hC ext
    unfold complete_external_payout
    rw [hp]
    dsimp only
    by_cases hm : p.external_payout_id ≠ some ext
    · rw [if_pos hm]
      exact hbase
    · rw [if_neg hm, if_pos hC]
      exact hbase

def c8wpayout : Payout :=
  { id := 2, idempotency_key := "k8w", amount := 10000, currency := "USD",
    recipient_account := "r", recipient_name := "", description := "",
    status := .COMPLETED, ledger_transaction_id := none,
    external_payout_id := none, external_reference := none,
    error_message := none, retry_count := 0, metadata := [] }

def c8wdb : DB := { seedDB with payouts := [c8wpayout], next_pk := 3 }

theorem claim_c8_witness :
    payoutStatusIn (process_payout_task c8wdb 2).2 2 = some PayoutStatus.COMPLETED ∧
    payoutStatusIn (initiate_external_payout c8wdb 2).2 2 = some PayoutStatus.COMPLETED ∧
    (Payout.mark_processing c8wdb 2).isOk = false ∧
    payoutStatusIn (complete_external_payout c8wdb 2 "x").2 2 = some PayoutStatus.COMPLETED := by
  have H := claim_c8_amended_guarded_operations_preserve_terminal c8wdb 2
    c8wpayout (by decide) (Or.inl (by decide))
  exact ⟨H.1, H.2.1, H.2.2.1, H.2.2.2 (by decide) "x"⟩

/-- Contribution rule written from the words of the claim: +amount for a
    DEBIT entry on ASSET and EXPENSE accounts and for a CREDIT entry on
    every other account type, and -amount otherwise. -/
def specContribution (t : AccountType) (e : LedgerEntry) : Int :=
  if ((t = AccountType.ASSET ∨ t = AccountType.EXPENSE) ∧ e.entry_type = EntryType.DEBIT)
     ∨ (¬(t = AccountType.ASSET ∨ t = AccountType.EXPENSE) ∧ e.entry_type = EntryType.CREDIT)
  then e.amount else -e.amount

theorem entryContribution_eq_specContribution (t : AccountType) (e : LedgerEntry) :
    entryContribution t e = specContribution t e := by
  cases t <;> cases he : e.entry_type <;>
    simp [entryContribution, specContribution, he]

theorem balance_update_twice (aid : Nat) (bal : Int) (r : AccountBalance) :
    (if ((if (r.account_id == aid) = true
           then ({ r with balance := bal } : AccountBalance) else r).account_id == aid) = true
     then ({ (if (r.account_id == aid) = true
               then ({ r with balance := bal } : AccountBalance) else r) with
             balance := bal } : AccountBalance)
     else (if (r.account_id == aid) = true
            then ({ r with balance := bal } : AccountBalance) else r))
    = (if (r.account_id == aid) = true
        then ({ r with balance := bal } : AccountBalance) else r) := by
  by_cases h : (r.account_id == aid) = true
  · rw [if_pos h,
        if_pos (show (({ r with balance := bal } : AccountBalance).account_id == aid) = true from h)]
  · rw [if_neg h, if_neg h]

theorem balances_map_update_idem (aid : Nat) (bal : Int) (l : List AccountBalance) :
    (l.map (fun r => if r.account_id == aid then { r with balance := bal } else r)).map
      (fun r => if r.account_id == aid then { r with balance := bal } else r)
    = l.map (fun r => if r.account_id == aid then { r with balance := bal } else r) := by
  rw [List.map_map]
  exact List.map_congr_left (fun r _ => balance_update_twice aid bal r)

theorem balance_update_pred (aid : Nat) (bal : Int) (r : AccountBalance) :
    ((if (r.account_id == aid) = true
       then ({ r with balance := bal } : AccountBalance) else r).account_id == aid)
    = (r.account_id == aid) := by
  by_cases h : (r.account_id == aid) = true
  · rw [if_pos h]
  · rw [if_neg h]

theorem balances_find?_map_update (aid : Nat) (bal : Int) (l : List AccountBalance) :
    (l.map (fun r => if r.account_id == aid then { r with balance := bal } else r)).find?
      (fun r => r.account_id == aid)
    = (l.find? (fun r => r.account_id == aid)).map
        (fun r => if r.account_id == aid then { r with balance := bal } else r) := by
  induction l with
  | nil => rfl
  | cons a as ih =>
    rw [List.map_cons]
    by_cases h : (a.account_id == aid) = true
    · rw [List.find?_cons_of_pos _ (by rw [balance_update_pred]; exact h),
          @List.find?_cons_of_pos _ (fun r => r.account_id == aid) a as h]
      rfl
    · rw [List.find?_cons_of_neg _ (by rw [balance_update_pred]; exact h),
          @List.find?_cons_of_neg _ (fun r => r.account_id == aid) a as h, ih]

/-- C9: AccountBalance.rebuild_for_account is idempotent and
    deterministic: a second run returns the same row and the same store,
    the computed balance is the fold of the contribution rule (+amount for
    DEBIT on ASSET/EXPENSE accounts, +amount for CREDIT on the other
    types, -amount otherwise) over the account's entries, and that value
    is what the stored AccountBalance row holds. -/
theorem claim_c9_rebuild_idempotent_and_fold (db : DB) (account : Account) :
    AccountBalance.rebuild_for_account
        (AccountBalance.rebuild_for_account db account).2 account
      = AccountBalance.rebuild_for_account db account ∧
    (AccountBalance.rebuild_for_account db account).1.balance
      = ((db.entries.filter (fun e => e.account_id == account.id)).map
          (specContribution account.account_type)).sum ∧
    (((AccountBalance.rebuild_for_account db account).2.account_balances.find?
        (fun r => r.account_id == account.id)).map (fun r => r.balance))
      = some ((AccountBalance.rebuild_for_account db account).1.balance) := by
  have hcontrib : entryContribution account.account_type
      = specContribution account.account_type :=
    funext (fun e => entryContribution_eq_specContribution account.account_type e)
  unfold AccountBalance.rebuild_for_account
  cases hf : db.account_balances.find? (fun b => b.account_id == account.id) with
  | none =>
    have hffalse : ∀ r ∈ db.account_balances, (r.account_id == account.id) = false := by
      rw [List.find?_eq_none] at hf
      intro r hr
      simpa using hf r hr
    simp only [hf]
    rw [find?_append_of_none _ hf]
    simp only [List.find?]
    rw [hcontrib]
    refine ⟨?_, rfl, ?_⟩
    · simp only [beq_self_eq_true]
      rw [List.map_append, map_if_eq_self hffalse]
      simp
    · simp only [beq_self_eq_true]
      rfl
  | some b0 =>
    have hpred : (b0.account_id == account.id) = true := by
      have hx := List.find?_some hf
      exact hx
    simp only [hf]
    rw [balances_find?_map_update, hf]
    simp only [Option.map_some']
    rw [hcontrib]
    refine ⟨?_, rfl, ?_⟩
    · rw [if_pos hpred]
      rw [balances_map_update_idem]
    · rw [if_pos hpred]

theorem payout_created_event_id_ne_empty (key x : String) :
    ¬(("payout_created_" ++ key ++ "_" ++ x) == "") = true := by
  intro hbeq
  have heq : "payout_created_" ++ key ++ "_" ++ x = "" := by simpa using hbeq
  have hl := congrArg String.length heq
  simp [String.length_append] at hl
  exact absurd hl.1.2 (by decide)

/-- C3: payout admission is idempotent.  A successful first call for a
    fresh idempotency_key stores exactly one PENDING payout with its
    CREATED PayoutEvent, PAYOUT_CREATED event and PayoutSummary; every
    later call with the same key, whatever amount, recipient or other
    parameters it supplies, returns the stored payout with all its fields
    unchanged and adds no payout row, no CREATED trail entry, no
    PAYOUT_CREATED event and no summary. -/
theorem claim_c3_admission_idempotent (db : DB) (key : String) (amount : Int)
    (ra : String) (rn d : Option String) (m : Option (List (String × String)))
    (p : Payout) (db1 : DB)
    (hkey0 : key ≠ "")
    (hamt : 0 < amount)
    (hKey : db.payouts.find? (fun q => q.idempotency_key == key) = none)
    (hPE : db.payout_events.filter
      (fun pe => pe.payout_pk == db.next_pk && pe.event_type == "CREATED") = [])
    (hEv : db.events.filter
      (fun ev => ev.event_type == "PAYOUT_CREATED" &&
        ev.aggregate_id == toString db.next_pk) = [])
    (hPS : db.payout_summaries.filter (fun s => s.payout_pk == db.next_pk) = [])
    (hEid : db.events.find? (fun e =>
      e.event_id == "payout_created_" ++ key ++ "_" ++ toString (db.next_pk + 1 + 1)) = none)
    (h : PayoutService.initiate_payout db key amount ra rn d m = .ok (p, db1)) :
    p.id = db.next_pk ∧
    p.status = .PENDING ∧
    db1.payouts.filter (fun q => q.idempotency_key == key) = [p] ∧
    (db1.payout_events.filter
      (fun pe => pe.payout_pk == p.id && pe.event_type == "CREATED")).length = 1 ∧
    (db1.events.filter
      (fun ev => ev.event_type == "PAYOUT_CREATED" &&
        ev.aggregate_id == toString p.id)).length = 1 ∧
    (db1.payout_summaries.filter (fun s => s.payout_pk == p.id)).length = 1 ∧
    (∀ a2 r2 n2 d2 m2,
       PayoutService.initiate_payout db1 key a2 r2 n2 d2 m2 = .ok (p, db1)) ∧
    (∀ db2 a2 r2 n2 d2 m2,
       db2.payouts.find? (fun q => q.idempotency_key == key) = some p →
       PayoutService.initiate_payout db2 key a2 r2 n2 d2 m2 = .ok (p, db2)) := by
  have hkb : ¬((key == "") = true) := by simp [hkey0]
  have hab : ¬(amount ≤ 0) := by omega
  unfold PayoutService.initiate_payout Payout.get_or_create_pending at h
  rw [hKey] at h
  dsimp only at h
  rw [if_neg hkb, if_neg hab] at h
  dsimp only [Bind.bind, Except.bind] at h
  rw [if_neg (by simp)] at h
  unfold Event.create_event at h
  dsimp only at h
  rw [hEid] at h
  rw [if_neg (payout_created_event_id_ne_empty key (toString (db.next_pk + 1 + 1)))] at h
  dsimp only [Bind.bind, Except.bind] at h
  injection h with h2
  injection h2 with hA hB
  subst hA
  subst hB
  refine ⟨rfl, rfl, ?_, ?_, ?_, ?_, ?_, ?_⟩
  · dsimp only
    rw [List.filter_append, filter_of_find?_none hKey]
    simp [List.filter]
  · dsimp only
    rw [List.filter_append, hPE]
    simp [List.filter]
  · dsimp only
    rw [List.filter_append, hEv]
    simp [List.filter]
  · dsimp only
    rw [List.filter_append, hPS]
    simp [List.filter]
  · intro a2 r2 n2 d2 m2
    unfold PayoutService.initiate_payout Payout.get_or_create_pending
    dsimp only
    rw [find?_append_of_none _ hKey]
    simp [List.find?, Bind.bind, Except.bind]
  · intro db2 a2 r2 n2 d2 m2 hfind
    unfold PayoutService.initiate_payout Payout.get_or_create_pending
    rw [hfind]
    dsimp only [Bind.bind, Except.bind]
    rfl

def dfltPayout : Payout :=
  { id := 0, idempotency_key := "none", amount := 1, currency := "USD",
    recipient_account := "", recipient_name := "", description := "",
    status := .PENDING, ledger_transaction_id := none,
    external_payout_id := none, external_reference := none,
    error_message := none, retry_count := 0, metadata := [] }

def c3res : Payout × DB :=
  exceptGet (dfltPayout, seedDB)
    (PayoutService.initiate_payout seedDB "k3" 5000 "r3" none none none)

theorem claim_c3_witness :
    c3res.1.id = seedDB.next_pk ∧
    c3res.1.status = .PENDING ∧
    c3res.2.payouts.filter (fun q => q.idempotency_key == "k3") = [c3res.1] ∧
    (c3res.2.payout_events.filter
      (fun pe => pe.payout_pk == c3res.1.id && pe.event_type == "CREATED")).length = 1 ∧
    (c3res.2.events.filter
      (fun ev => ev.event_type == "PAYOUT_CREATED" &&
        ev.aggregate_id == toString c3res.1.id)).length = 1 ∧
    (c3res.2.payout_summaries.filter (fun s => s.payout_pk == c3res.1.id)).length = 1 ∧
    PayoutService.initiate_payout c3res.2 "k3" 999999 "other" (some "n") (some "d")
      (some [("a", "b")]) = .ok (c3res.1, c3res.2) := by
  have H := claim_c3_admission_idempotent seedDB "k3" 5000 "r3" none none none
    c3res.1 c3res.2 (by decide) (by decide) (by rfl) (by rfl) (by rfl) (by rfl)
    (by rfl) (by rfl)
  exact ⟨H.1, H.2.1, H.2.2.1, H.2.2.2.1, H.2.2.2.2.1, H.2.2.2.2.2.1,
    H.2.2.2.2.2.2.1 999999 "other" (some "n") (some "d") (some [("a", "b")])⟩

end LedgerSafe
